import Mathlib

/-!
Verification of the terminal (PTY) bridging subsystem of QuackShell.

The server side lives in the connection handler registered with
io.on, in the main server file: on each socket connection it selects a
shell, spawns one node-pty process (cols 80, rows 30), and registers
handlers for the events named terminal:input, terminal:resize and
disconnect, plus the onData callback of the pty, which emits
terminal:output to the client.  On spawn failure it emits a diagnostic
line on terminal:output and returns before registering any handler.

We embed that handler as a state machine: ConnState is the state of one
socket connection, ConnEvent the events that can reach it (client
events, the asynchronous pty output callback, and the transport-level
disconnect), and step the dispatch the handler installs.  PtyState
models the node-pty process handle; ptyResize follows node-pty, whose
resize throws on non-positive dimensions before touching the geometry.
-/

namespace QuackShell

/-- Model of a node-pty process handle: reported geometry, the exact
sequence of chunks written to the process input stream, and whether
kill was requested. -/
structure PtyState where
  cols : Int
  rows : Int
  written : List String
  killed : Bool
deriving DecidableEq

/-- pty.spawn with the options used by the server: cols 80, rows 30.
The working directory and environment are inherited and do not affect
the bridging logic modelled here. -/
def ptySpawn (cols rows : Int) : PtyState :=
  { cols := cols, rows := rows, written := [], killed := false }

/-- node-pty resize: throws on non-positive cols or rows, before any
mutation; otherwise updates the reported geometry. -/
def ptyResize (p : PtyState) (cols rows : Int) : Except String PtyState :=
  if cols ≤ 0 ∨ rows ≤ 0 then
    Except.error "resizing must be done using positive cols and rows"
  else
    Except.ok { p with cols := cols, rows := rows }

/-- ptyProcess.write: appends the received chunk, verbatim, to the
process input stream. -/
def ptyWrite (p : PtyState) (data : String) : PtyState :=
  { p with written := p.written ++ [data] }

/-- ptyProcess.kill: requests termination of the process. -/
def ptyKill (p : PtyState) : PtyState :=
  { p with killed := true }

/-- Runtime shape of a value emitted over the socket: the server only
ever emits plain strings on terminal:output, but the type also admits
the object shape a tagged payload would need. -/
inductive Payload where
  | str (s : String)
  | obj (fields : List (String × String))
deriving DecidableEq

/-- Whether a payload value has a field of the given name; a plain
string has none. -/
def Payload.hasField : Payload → String → Bool
  | Payload.str _, _ => false
  | Payload.obj fs, k => fs.any (fun f => f.fst == k)

/-- The events that can reach one connection: the client events
terminal:input and terminal:resize, the asynchronous pty output
callback, the transport-level disconnect, and any other event name
(for which the handler registers nothing). -/
inductive ConnEvent where
  | input (data : String)
  | resize (cols rows : Int)
  | ptyData (data : String)
  | disconnect
  | other (name : String)
deriving DecidableEq

/-- State of one socket connection in the server handler: the pty (none
when spawn failed), whether the event handlers were registered (the
handler returns early on spawn failure, registering none), the events
emitted to the client in order, how many kill requests were issued,
how many spawn attempts were made, and whether an uncaught exception
escaped a handler (which would crash the server process). -/
structure ConnState where
  pty : Option PtyState
  handlersRegistered : Bool
  emitted : List (String × Payload)
  killCount : Nat
  spawnCount : Nat
  crashed : Bool
deriving DecidableEq

/-- The diagnostic line the server writes on spawn failure, exactly as
formatted in the catch block. -/
def spawnErrorMsg (shell msg : String) : String :=
  "\r\nError: Failed to spawn shell '" ++ shell ++ "': " ++ msg ++ "\r\n"

/-- The connection handler up to and including handler registration:
one spawn attempt is made; on success the handlers are registered; on
failure the diagnostic is emitted on terminal:output and the handler
returns early, registering nothing. -/
def initConn (spawnResult : Except String Unit) (shell : String) : ConnState :=
  match spawnResult with
  | Except.ok _ =>
      { pty := some (ptySpawn 80 30), handlersRegistered := true, emitted := [],
        killCount := 0, spawnCount := 1, crashed := false }
  | Except.error msg =>
      { pty := none, handlersRegistered := false,
        emitted := [("terminal:output", Payload.str (spawnErrorMsg shell msg))],
        killCount := 0, spawnCount := 1, crashed := false }

/-- Dispatch of one event on a connection, as the registered handlers
do it: input writes the chunk to the pty verbatim; resize forwards the
dimensions to ptyResize, and the exception node-pty throws on
non-positive values is not caught by the handler; the pty output
callback emits the chunk as a plain string on terminal:output;
disconnect issues one kill request.  A crashed server processes
nothing, and a connection with no registered handlers drops every
event silently. -/
def step (s : ConnState) (e : ConnEvent) : ConnState :=
  if s.crashed then s
  else if !s.handlersRegistered then s
  else
    match s.pty with
    | none => s
    | some p =>
      match e with
      | ConnEvent.input d => { s with pty := some (ptyWrite p d) }
      | ConnEvent.resize c r =>
          match ptyResize p c r with
          | Except.ok p2 => { s with pty := some p2 }
          | Except.error _ => { s with crashed := true }
      | ConnEvent.ptyData d =>
          { s with emitted := s.emitted ++ [("terminal:output", Payload.str d)] }
      | ConnEvent.disconnect =>
          { s with pty := some (ptyKill p), killCount := s.killCount + 1 }
      | ConnEvent.other _ => s

/-- A whole connection: the handler runs at connection time, then the
events are processed in arrival order. -/
def handleConn (spawnResult : Except String Unit) (shell : String)
    (es : List ConnEvent) : ConnState :=
  es.foldl step (initConn spawnResult shell)

/-- Shell selection, as written in the handler: the SHELL environment
variable if set and non-empty (the JS or-operator treats the empty
string as absent), otherwise powershell.exe on win32 and /bin/zsh
elsewhere. -/
def shellFor (envShell : Option String) (platform : String) : String :=
  match envShell with
  | some s =>
      if s = "" then (if platform = "win32" then "powershell.exe" else "/bin/zsh") else s
  | none => if platform = "win32" then "powershell.exe" else "/bin/zsh"

/-! ### Basic step lemmas -/

theorem step_of_crashed (s : ConnState) (e : ConnEvent) (h : s.crashed = true) :
    step s e = s := by
  simp [step, h]

theorem step_of_no_handlers (s : ConnState) (e : ConnEvent)
    (h : s.handlersRegistered = false) : step s e = s := by
  cases hc : s.crashed <;> simp [step, h, hc]

theorem step_handlers (s : ConnState) (e : ConnEvent) :
    (step s e).handlersRegistered = s.handlersRegistered := by
  unfold step
  repeat' split
  all_goals rfl

theorem step_spawnCount (s : ConnState) (e : ConnEvent) :
    (step s e).spawnCount = s.spawnCount := by
  unfold step
  repeat' split
  all_goals rfl

theorem step_pty_isSome (s : ConnState) (e : ConnEvent) :
    (step s e).pty.isSome = s.pty.isSome := by
  unfold step
  repeat' split
  all_goals first
    | rfl
    | simp_all

theorem step_killCount_of_ne (s : ConnState) (e : ConnEvent)
    (h : e ≠ ConnEvent.disconnect) : (step s e).killCount = s.killCount := by
  unfold step
  repeat' split
  all_goals first
    | rfl
    | simp_all

/-- Along a disconnect-free trace, a live connection keeps its handlers,
keeps a pty, and issues no kill request. -/
theorem trace_ok_facts (es : List ConnEvent) :
    ∀ s : ConnState, ConnEvent.disconnect ∉ es →
      s.handlersRegistered = true → s.killCount = 0 → s.pty.isSome = true →
      (es.foldl step s).handlersRegistered = true ∧
      (es.foldl step s).killCount = 0 ∧
      (es.foldl step s).pty.isSome = true := by
  induction es with
  | nil => exact fun s _ h1 h2 h3 => ⟨h1, h2, h3⟩
  | cons e es ih =>
    intro s hnd h1 h2 h3
    have hne : e ≠ ConnEvent.disconnect := by
      intro h; exact hnd (h ▸ List.mem_cons_self e es)
    have hnd' : ConnEvent.disconnect ∉ es := fun h => hnd (List.mem_cons_of_mem _ h)
    refine ih (step s e) hnd' ?_ ?_ ?_
    · rw [step_handlers]; exact h1
    · rw [step_killCount_of_ne s e hne]; exact h2
    · rw [step_pty_isSome]; exact h3

/-! ### Claim theorems -/

/-- C1: if the shell was spawned and the server has not crashed, then
when the transport-level disconnect event fires at the end of the
connection's event trace, exactly one kill request has been issued and
the connection's pty process has been killed — no spawned shell
process outlives its connection. -/
theorem disconnect_kills_pty (shell : String) (es : List ConnEvent)
    (hnd : ConnEvent.disconnect ∉ es)
    (hcr : (handleConn (Except.ok ()) shell es).crashed = false) :
    (handleConn (Except.ok ()) shell (es ++ [ConnEvent.disconnect])).killCount = 1 ∧
    ∃ p, (handleConn (Except.ok ()) shell (es ++ [ConnEvent.disconnect])).pty = some p ∧
      p.killed = true := by
  obtain ⟨h1, h2, h3⟩ :=
    trace_ok_facts es (initConn (Except.ok ()) shell) hnd rfl rfl rfl
  have h1' : (handleConn (Except.ok ()) shell es).handlersRegistered = true := h1
  have h2' : (handleConn (Except.ok ()) shell es).killCount = 0 := h2
  have h3' : (handleConn (Except.ok ()) shell es).pty.isSome = true := h3
  have happ : handleConn (Except.ok ()) shell (es ++ [ConnEvent.disconnect]) =
      step (handleConn (Except.ok ()) shell es) ConnEvent.disconnect := by
    unfold handleConn
    rw [List.foldl_append]
    rfl
  obtain ⟨p, hp⟩ := Option.isSome_iff_exists.mp h3'
  have hstep : step (handleConn (Except.ok ()) shell es) ConnEvent.disconnect =
      { handleConn (Except.ok ()) shell es with
        pty := some (ptyKill p),
        killCount := (handleConn (Except.ok ()) shell es).killCount + 1 } := by
    simp [step, hcr, h1', hp]
  rw [happ, hstep]
  refine ⟨by simp [h2'], ptyKill p, rfl, rfl⟩

/-- Witness for C1 on the concrete trace input, resize, then the
transport disconnect. -/
theorem disconnect_kills_pty_witness :
    (ConnEvent.disconnect ∉ [ConnEvent.input "ls", ConnEvent.resize 100 40]) ∧
    ((handleConn (Except.ok ()) "/bin/zsh"
        [ConnEvent.input "ls", ConnEvent.resize 100 40]).crashed = false) ∧
    ((handleConn (Except.ok ()) "/bin/zsh"
        ([ConnEvent.input "ls", ConnEvent.resize 100 40] ++ [ConnEvent.disconnect])).killCount = 1 ∧
      ∃ p, (handleConn (Except.ok ()) "/bin/zsh"
        ([ConnEvent.input "ls", ConnEvent.resize 100 40] ++ [ConnEvent.disconnect])).pty = some p ∧
        p.killed = true) :=
  ⟨by decide, by decide,
    disconnect_kills_pty "/bin/zsh" [ConnEvent.input "ls", ConnEvent.resize 100 40]
      (by decide) (by decide)⟩

/-- C2 (failing input): a resize request with cols 0 on a healthy
connection is forwarded unchecked to the pty layer, whose exception
escapes the handler and crashes the server process; the prior geometry
is unchanged but the request is not silently ignored. -/
theorem resize_below_one_crashes :
    (step (initConn (Except.ok ()) "/bin/zsh") (ConnEvent.resize 0 24)).crashed = true ∧
    (step (initConn (Except.ok ()) "/bin/zsh") (ConnEvent.resize 0 24)).pty =
      (initConn (Except.ok ()) "/bin/zsh").pty := by
  exact ⟨rfl, rfl⟩

/-- C3 (counterexample): the output event emitted when the pty produces
a chunk carries the chunk as a plain string with no sessionId field. -/
theorem output_event_lacks_sessionId :
    (step (initConn (Except.ok ()) "/bin/zsh") (ConnEvent.ptyData "hello")).emitted =
      [("terminal:output", Payload.str "hello")] ∧
    Payload.hasField (Payload.str "hello") "sessionId" = false := by
  exact ⟨rfl, rfl⟩

theorem step_emitted_cases (s : ConnState) (e : ConnEvent) :
    (step s e).emitted = s.emitted ∨
    ∃ d, (step s e).emitted = s.emitted ++ [("terminal:output", Payload.str d)] := by
  unfold step
  repeat' split
  all_goals first
    | exact Or.inl rfl
    | exact Or.inr ⟨_, rfl⟩

theorem step_emitted_mem (s : ConnState) (e : ConnEvent) (ev : String × Payload)
    (hmem : ev ∈ (step s e).emitted) :
    ev ∈ s.emitted ∨ (ev.1 = "terminal:output" ∧ ∃ d, ev.2 = Payload.str d) := by
  rcases step_emitted_cases s e with h | ⟨d, h⟩
  · rw [h] at hmem
    exact Or.inl hmem
  · rw [h] at hmem
    rcases List.mem_append.mp hmem with h2 | h2
    · exact Or.inl h2
    · have h3 : ev = ("terminal:output", Payload.str d) := by simpa using h2
      subst h3
      exact Or.inr ⟨rfl, d, rfl⟩

theorem trace_emitted_mem (es : List ConnEvent) :
    ∀ s : ConnState,
      (∀ x ∈ s.emitted, x.1 = "terminal:output" ∧ ∃ d, x.2 = Payload.str d) →
      ∀ ev ∈ (es.foldl step s).emitted,
        ev.1 = "terminal:output" ∧ ∃ d, ev.2 = Payload.str d := by
  induction es with
  | nil => exact fun s h => h
  | cons e es ih =>
    intro s h ev hmem
    refine ih (step s e) ?_ ev hmem
    intro x hx
    rcases step_emitted_mem s e x hx with hx' | hx'
    · exact h x hx'
    · exact hx'

/-- C3 (amended): every event the server emits to the client is a
terminal:output event whose payload is the plain data string, carrying
no sessionId field; each connection owns exactly one pty, so the
client routes output by connection. -/
theorem output_events_untagged (spawnResult : Except String Unit) (shell : String)
    (es : List ConnEvent) (ev : String × Payload)
    (hmem : ev ∈ (handleConn spawnResult shell es).emitted) :
    ev.1 = "terminal:output" ∧ Payload.hasField ev.2 "sessionId" = false := by
  have hbase : ∀ x ∈ (initConn spawnResult shell).emitted,
      x.1 = "terminal:output" ∧ ∃ d, x.2 = Payload.str d := by
    cases spawnResult with
    | ok u => intro x hx; simp [initConn] at hx
    | error msg =>
        intro x hx
        simp [initConn] at hx
        subst hx
        exact ⟨rfl, _, rfl⟩
  obtain ⟨h1, d, h2⟩ := trace_emitted_mem es (initConn spawnResult shell) hbase ev hmem
  exact ⟨h1, by rw [h2]; rfl⟩

/-- Witness for C3 (amended) on a concrete trace with one pty output
chunk. -/
theorem output_events_untagged_witness :
    (("terminal:output", Payload.str "x") ∈
      (handleConn (Except.ok ()) "/bin/zsh" [ConnEvent.ptyData "x"]).emitted) ∧
    (("terminal:output", Payload.str "x").1 = "terminal:output" ∧
      Payload.hasField ("terminal:output", Payload.str "x").2 "sessionId" = false) :=
  ⟨by decide,
    output_events_untagged (Except.ok ()) "/bin/zsh" [ConnEvent.ptyData "x"]
      ("terminal:output", Payload.str "x") (by decide)⟩

theorem strLength_append (a b : String) : (a ++ b).length = a.length + b.length :=
  List.length_append a.data b.data

theorem spawnErrorMsg_ne_empty (shell msg : String) : spawnErrorMsg shell msg ≠ "" := by
  intro h
  have h2 := congrArg String.length h
  simp only [spawnErrorMsg, strLength_append] at h2
  have hA : (0 : Nat) < ("\r\nError: Failed to spawn shell '" : String).length := by decide
  have h0 : ("" : String).length = 0 := rfl
  rw [h0] at h2
  omega

/-- C4: when spawn fails, the handler emits exactly one terminal:output
event carrying the non-empty diagnostic line naming the shell and the
error, the connection ends up with no process and no handlers (the
session never runs), and the handler returns normally — no uncaught
fault, no silent blank terminal. -/
theorem spawn_failure_surfaced (shell msg : String) :
    (initConn (Except.error msg) shell).emitted =
      [("terminal:output", Payload.str (spawnErrorMsg shell msg))] ∧
    spawnErrorMsg shell msg ≠ "" ∧
    (initConn (Except.error msg) shell).pty = none ∧
    (initConn (Except.error msg) shell).handlersRegistered = false ∧
    (initConn (Except.error msg) shell).crashed = false := by
  exact ⟨rfl, spawnErrorMsg_ne_empty shell msg, rfl, rfl, rfl⟩

/-- C5 (counterexample): an input event arriving on a connection whose
session never started (spawn failed, the session is terminated) is
dropped with no report of any kind: the connection state, including
the list of emitted events, is exactly unchanged. -/
theorem stale_event_dropped_without_report :
    (step (initConn (Except.error "ENOENT") "/bin/zsh") (ConnEvent.input "ls\r")).emitted =
      (initConn (Except.error "ENOENT") "/bin/zsh").emitted ∧
    step (initConn (Except.error "ENOENT") "/bin/zsh") (ConnEvent.input "ls\r") =
      initConn (Except.error "ENOENT") "/bin/zsh" := by
  exact ⟨rfl, rfl⟩

/-- C5 (amended): events addressed to a session that never started are
silently discarded — nothing is emitted or reported — and the
connection does not crash. -/
theorem stale_events_ignored_no_crash (msg shell : String) (e : ConnEvent) :
    (step (initConn (Except.error msg) shell) e).emitted =
      (initConn (Except.error msg) shell).emitted ∧
    (step (initConn (Except.error msg) shell) e).crashed = false := by
  have h : step (initConn (Except.error msg) shell) e = initConn (Except.error msg) shell :=
    step_of_no_handlers _ e rfl
  rw [h]
  exact ⟨rfl, rfl⟩

/-- C6: the shell used for a spawn is the environment-supplied SHELL
value when one is set (non-empty), and otherwise the platform default:
powershell.exe on win32, the POSIX path /bin/zsh elsewhere.  The
selection is computed once per connection handler run, i.e. once per
spawn. -/
theorem shell_selection_policy (s p : String) (hs : s ≠ "") (hp : p ≠ "win32") :
    shellFor (some s) p = s ∧
    shellFor none p = "/bin/zsh" ∧
    shellFor none "win32" = "powershell.exe" := by
  refine ⟨?_, ?_, rfl⟩
  · simp [shellFor, hs]
  · simp [shellFor, hp]

/-- Witness for C6 with SHELL set to /bin/bash on a non-Windows
platform. -/
theorem shell_selection_policy_witness :
    (("/bin/bash" : String) ≠ "") ∧ (("linux" : String) ≠ "win32") ∧
    (shellFor (some "/bin/bash") "linux" = "/bin/bash" ∧
      shellFor none "linux" = "/bin/zsh" ∧
      shellFor none "win32" = "powershell.exe") :=
  ⟨by decide, by decide,
    shell_selection_policy "/bin/bash" "linux" (by decide) (by decide)⟩

/-- C7: on a running connection, an input event appends exactly the
received chunk to the pty process input stream — no implicit newline
is appended and no transform is applied. -/
theorem input_forwarded_verbatim (s : ConnState) (p : PtyState) (d : String)
    (hp : s.pty = some p) (hh : s.handlersRegistered = true) (hc : s.crashed = false) :
    (step s (ConnEvent.input d)).pty = some (ptyWrite p d) ∧
    (ptyWrite p d).written = p.written ++ [d] := by
  refine ⟨?_, rfl⟩
  simp [step, hp, hh, hc]

/-- Witness for C7 on a fresh connection and the chunk echo hi. -/
theorem input_forwarded_verbatim_witness :
    ((initConn (Except.ok ()) "/bin/zsh").pty = some (ptySpawn 80 30)) ∧
    ((initConn (Except.ok ()) "/bin/zsh").handlersRegistered = true) ∧
    ((initConn (Except.ok ()) "/bin/zsh").crashed = false) ∧
    ((step (initConn (Except.ok ()) "/bin/zsh") (ConnEvent.input "echo hi")).pty =
        some (ptyWrite (ptySpawn 80 30) "echo hi") ∧
      (ptyWrite (ptySpawn 80 30) "echo hi").written =
        (ptySpawn 80 30).written ++ ["echo hi"]) :=
  ⟨rfl, rfl, rfl,
    input_forwarded_verbatim (initConn (Except.ok ()) "/bin/zsh") (ptySpawn 80 30)
      "echo hi" rfl rfl rfl⟩

/-- C8: on a running connection, a resize with cols ≥ 1 and rows ≥ 1
succeeds: the pty geometry afterwards is exactly the requested pair
and the connection has not crashed. -/
theorem resize_valid_updates_geometry (s : ConnState) (p : PtyState) (c r : Int)
    (hp : s.pty = some p) (hh : s.handlersRegistered = true) (hc : s.crashed = false)
    (hcols : 1 ≤ c) (hrows : 1 ≤ r) :
    (∃ p2, (step s (ConnEvent.resize c r)).pty = some p2 ∧
      p2.cols = c ∧ p2.rows = r) ∧
    (step s (ConnEvent.resize c r)).crashed = false := by
  have hok : ptyResize p c r = Except.ok { p with cols := c, rows := r } := by
    unfold ptyResize
    rw [if_neg]
    push_neg
    omega
  refine ⟨⟨{ p with cols := c, rows := r }, ?_, rfl, rfl⟩, ?_⟩
  · simp [step, hp, hh, hc, hok]
  · simp [step, hp, hh, hc, hok]

/-- Witness for C8 resizing a fresh connection to 120 by 48. -/
theorem resize_valid_updates_geometry_witness :
    ((initConn (Except.ok ()) "/bin/zsh").pty = some (ptySpawn 80 30)) ∧
    ((initConn (Except.ok ()) "/bin/zsh").handlersRegistered = true) ∧
    ((initConn (Except.ok ()) "/bin/zsh").crashed = false) ∧
    ((1 : Int) ≤ 120) ∧ ((1 : Int) ≤ 48) ∧
    ((∃ p2, (step (initConn (Except.ok ()) "/bin/zsh") (ConnEvent.resize 120 48)).pty =
        some p2 ∧ p2.cols = 120 ∧ p2.rows = 48) ∧
      (step (initConn (Except.ok ()) "/bin/zsh") (ConnEvent.resize 120 48)).crashed = false) :=
  ⟨rfl, rfl, rfl, by decide, by decide,
    resize_valid_updates_geometry (initConn (Except.ok ()) "/bin/zsh") (ptySpawn 80 30)
      120 48 rfl rfl rfl (by decide) (by decide)⟩

/-- C9: every connection makes exactly one spawn attempt, made at
connection time before any event is processed, and no event ever
makes another. -/
theorem one_spawn_per_connection (spawnResult : Except String Unit) (shell : String)
    (es : List ConnEvent) :
    (handleConn spawnResult shell es).spawnCount = 1 ∧
    (initConn spawnResult shell).spawnCount = 1 := by
  constructor
  · unfold handleConn
    have hinit : (initConn spawnResult shell).spawnCount = 1 := by
      cases spawnResult <;> rfl
    generalize hgen : initConn spawnResult shell = s0 at hinit
    clear hgen
    induction es generalizing s0 with
    | nil => exact hinit
    | cons e es ih =>
        exact ih (step s0 e) (by rw [step_spawnCount]; exact hinit)
  · cases spawnResult <;> rfl

/-- C10: when spawn fails the handler returns before registering any
handler, so the whole event trace leaves the connection state exactly
as the failure left it, and nothing ever crashes or touches a process
handle. -/
theorem spawn_failure_inert (msg shell : String) (es : List ConnEvent) :
    handleConn (Except.error msg) shell es = initConn (Except.error msg) shell ∧
    (handleConn (Except.error msg) shell es).crashed = false := by
  have hfix : ∀ e, step (initConn (Except.error msg) shell) e =
      initConn (Except.error msg) shell := fun e =>
    step_of_no_handlers _ e rfl
  have hmain : handleConn (Except.error msg) shell es = initConn (Except.error msg) shell := by
    unfold handleConn
    induction es with
    | nil => rfl
    | cons e es ih => rw [List.foldl_cons, hfix e]; exact ih
  refine ⟨hmain, ?_⟩
  rw [hmain]
  rfl

end QuackShell
